import Mathlib

/-!
Verification of the SonicFlux Node/Express server (src/app.js, src/timer.js,
src/routes/route.js) against its natural-language specification.

The development is a shallow embedding: JavaScript numbers that the program
only ever holds as integers are modelled as Int (or Nat for the wall clock),
nullable values as Option, the registry object all_players_list as an
association list that keeps JavaScript object key semantics (a key set to
null stays present), and every handler as a pure function from server state
and request to the new state together with the list of messages it sends.
-/

namespace SonicFlux

/-! ## Constants (src/app.js lines 43-49, src/timer.js lines 148-175) -/

def SECS_IN_LOBBY : Int := 30
def SECS_IN_COMPLETE_CYCLE : Int := 180
def MSECS_IN_COMPLETE_CYCLE : Nat := 180 * 1000
def MIN_ROOM_NUM : Int := 0
def NUM_ROOMS : Int := 4
def SECS_MAX_SKIP_FWD : Int := 9
def SECS_PER_CALIBRATION : Int := 1
def USE_LARGER_CLOCK_SKEW : Bool := false
def MSECS_MAX_CLK_ERR : Int := 10
def MSECS_EXTRA_MAX_CLK_ERR : Int := 25

/-- TimerEnum.TIMER_NOT_SET -/
def TIMER_NOT_SET : Int := 0
/-- TimerEnum.FASTER_TIMER_INTERVAL (only used if USE_LARGER_CLOCK_SKEW) -/
def FASTER_TIMER_INTERVAL : Int := 960
/-- TimerEnum.FAST_TIMER_INTERVAL -/
def FAST_TIMER_INTERVAL : Int := 976
/-- TimerEnum.NORMAL_TIMER_INTERVAL -/
def NORMAL_TIMER_INTERVAL : Int := 990
/-- TimerEnum.SLOW_TIMER_INTERVAL -/
def SLOW_TIMER_INTERVAL : Int := 1004
/-- TimerEnum.SLOWER_TIMER_INTERVAL (only used if USE_LARGER_CLOCK_SKEW) -/
def SLOWER_TIMER_INTERVAL : Int := 1020
/-- var initMSecOffset = -10 (timer.js line 175) -/
def initMSecOffset : Int := -10

/-! ## Clock arithmetic (src/timer.js) -/

/-- timer.js msecUntilNextGame: with now = Date.getTime(),
timePrevGameOver = Math.floor(now / MSECS_IN_COMPLETE_CYCLE) * MSECS_IN_COMPLETE_CYCLE,
returns timePrevGameOver + MSECS_IN_COMPLETE_CYCLE - now. -/
def msecUntilNextGame (now : Nat) : Nat :=
  (now / MSECS_IN_COMPLETE_CYCLE) * MSECS_IN_COMPLETE_CYCLE + MSECS_IN_COMPLETE_CYCLE - now

/-- The result of Timer.start (timer.js lines 480-490): secsRemaining is set to
parseInt(msecsRemaining / 1000); the one-shot delay handed to delayStart is
msecsRemaining % 1000 + initMSecOffset; the recurring interval handed to
delayStart is NORMAL_TIMER_INTERVAL. -/
structure StartResult where
  secsRemaining : Int
  delay : Int
  interval : Int
  deriving DecidableEq

/-- timer.js start(): msecsRemaining = msecUntilNextGame();
secsRemaining = parseInt(msecsRemaining / 1000); msecsRemaining %= 1000;
delayStart(firstTick, msecsRemaining + initMSecOffset, timerTick,
NORMAL_TIMER_INTERVAL, this). -/
def start (now : Nat) : StartResult :=
  let msecsRemaining := msecUntilNextGame now
  { secsRemaining := ((msecsRemaining / 1000 : Nat) : Int)
    delay := ((msecsRemaining % 1000 : Nat) : Int) + initMSecOffset
    interval := NORMAL_TIMER_INTERVAL }

/-- timer.js adjustLobbySecs line 190:
actualSecRemaining = parseInt((msecUntilNextGame() + 500) / 1000). -/
def actualSecRemaining (now : Nat) : Int :=
  ((msecUntilNextGame now : Int) + 500) / 1000

/-- timer.js adjustLobbySecs (lines 188-203): if the actual whole-second
distance to the next cycle boundary differs from secsRemaining, skip forward
at most SECS_MAX_SKIP_FWD, or skip backwards at most to the start of Lobby. -/
def adjustLobbySecs (now : Nat) (secsRemaining : Int) : Int :=
  let actual := actualSecRemaining now
  if actual ≠ secsRemaining then
    max (secsRemaining - SECS_MAX_SKIP_FWD) (min SECS_IN_LOBBY actual)
  else
    secsRemaining

/-- timer.js calibrateTimer line 214: msecClkErr = (now + 500) % 1000 - 500. -/
def msecClkErr (now : Nat) : Int :=
  ((now : Int) + 500) % 1000 - 500

/-- timer.js calibrateTimer (lines 210-251), interval choice: NORMAL by
default, FAST when the error is above MSECS_MAX_CLK_ERR, SLOW when below
-MSECS_MAX_CLK_ERR; when useLargerClockSkew, FASTER/SLOWER override beyond
MSECS_EXTRA_MAX_CLK_ERR. -/
def newTimerInterval (useLargerClockSkew : Bool) (now : Nat) : Int :=
  let msecClkErrVal := msecClkErr now
  let base :=
    if msecClkErrVal > MSECS_MAX_CLK_ERR then FAST_TIMER_INTERVAL
    else if msecClkErrVal < -MSECS_MAX_CLK_ERR then SLOW_TIMER_INTERVAL
    else NORMAL_TIMER_INTERVAL
  if useLargerClockSkew then
    if msecClkErrVal > MSECS_EXTRA_MAX_CLK_ERR then FASTER_TIMER_INTERVAL
    else if msecClkErrVal < -MSECS_EXTRA_MAX_CLK_ERR then SLOWER_TIMER_INTERVAL
    else base
  else base

/-- timer.js calibrateTimer tail (lines 239-250): returns the interval now in
force and whether the recurring timer was cleared and reinstalled (which
happens exactly when the chosen interval differs from the current one). -/
def calibrateTimer (useLargerClockSkew : Bool) (now : Nat)
    (currentTimerInterval : Int) : Int × Bool :=
  let n := newTimerInterval useLargerClockSkew now
  if currentTimerInterval ≠ n then (n, true) else (currentTimerInterval, false)

/-- The sub-routines timerTick (timer.js lines 323-356) invokes, in order. -/
inductive TickAct where
  | playTick
  | firstLobbyTick
  | adjustLobbySecs
  | lobbyTick
  | firstPlayTick
  | calibrateTimer
  deriving DecidableEq

/-- The module-wide mutable variables of the recurring timer that timerTick
touches: secsRemaining and currentTimerInterval. -/
structure ClockState where
  secsRemaining : Int
  currentTimerInterval : Int
  deriving DecidableEq

/-- timer.js timerTick (lines 323-356): dispatch on secsRemaining
(playTick when secsRemaining is at least SECS_IN_LOBBY, with firstLobbyTick
right after it when equal; adjustLobbySecs then lobbyTick at
SECS_IN_LOBBY - 1; otherwise lobbyTick, with the reset to
SECS_IN_COMPLETE_CYCLE and firstPlayTick when secsRemaining is 0); then
calibrateTimer whenever secsRemaining % SECS_PER_CALIBRATION == 0; finally
decrement secsRemaining. Returns the new clock state and the invoked acts. -/
def timerTick (now : Nat) (cs : ClockState) : ClockState × List TickAct :=
  let s := cs.secsRemaining
  let step1 : Int × List TickAct :=
    if s ≥ SECS_IN_LOBBY then
      (s, [TickAct.playTick] ++ (if s = SECS_IN_LOBBY then [TickAct.firstLobbyTick] else []))
    else if s = SECS_IN_LOBBY - 1 then
      (adjustLobbySecs now s, [TickAct.adjustLobbySecs, TickAct.lobbyTick])
    else if s = 0 then
      (SECS_IN_COMPLETE_CYCLE, [TickAct.lobbyTick, TickAct.firstPlayTick])
    else
      (s, [TickAct.lobbyTick])
  let s1 := step1.1
  let step2 : Int × List TickAct :=
    if s1 % SECS_PER_CALIBRATION = 0 then
      ((calibrateTimer USE_LARGER_CLOCK_SKEW now cs.currentTimerInterval).1,
        [TickAct.calibrateTimer])
    else
      (cs.currentTimerInterval, [])
  ({ secsRemaining := s1 - 1, currentTimerInterval := step2.1 }, step1.2 ++ step2.2)

/-! ## Data model of the Router (src/routes/route.js, concatenated into
src/app.js in this snapshot) -/

/-- The player record built at route.js line 343, with fields player_tag,
points, diff_lvl, incomplete_round, ref_count.
points is Option Int: JavaScript null/undefined is none. -/
structure Player where
  player_tag : String
  points : Option Int
  diff_lvl : Int
  incomplete_round : Bool
  ref_count : Int
  deriving DecidableEq

/-- The wire payloads the server sends, one constructor per payload shape. -/
inductive Payload where
  | pInt (n : Int)
  | pError (error_str : String) (user_input : String)
  | pErrStr (error_str : String)
  | pPlayer (p : Player)
  | pGamer (player_tag : String) (points : Option Int)
  | pTag (player_tag : String)
  | pLeaders (leaders : List (String × Option Int))
  | pPlayTick (time_remaining : Int) (leaders : List (String × Option Int))
  | pResults (results : List (String × Option Int))
  | pFinalScore (points : Option Int) (round_complete : Bool)
  deriving DecidableEq

/-- The transport operations the server performs. emit is request.io.emit,
a unicast to the originating session only; roomBroadcast is
request.io.room(room).broadcast, a fan-out to the room excluding the sender;
ioRoomBroadcast is app.io.room(room).broadcast, to every session in the
room; broadcastAll is app.io.broadcast. Rooms are addressed by their string
form, as the source does with the empty-string concatenation. -/
inductive Msg where
  | emit (event : String) (payload : Payload)
  | roomBroadcast (room : String) (event : String) (payload : Payload)
  | ioRoomBroadcast (room : String) (event : String) (payload : Payload)
  | broadcastAll (event : String) (payload : Payload)
  deriving DecidableEq

/-- request.data.profile of client_ready / change_room. A missing or null
field is none. The difficulty level is kept as the wire string; a numeric
wire value behaves as its decimal string under parseInt. -/
structure Profile where
  difficulty_level : Option String
  player_tag : Option String
  deriving DecidableEq

/-- request.data of client_ready / change_room. -/
structure ReqData where
  profile : Option Profile
  deriving DecidableEq

/-- A client_ready / change_room request. -/
structure Req where
  data : Option ReqData
  deriving DecidableEq

/-- request.data of player_scored. -/
structure ScoreData where
  points : Option Int
  deriving DecidableEq

/-- A player_scored request: whether request.session is set, and the data. -/
structure ScoreReq where
  hasSession : Bool
  data : Option ScoreData
  deriving DecidableEq

/-! ## The registry: all_players_list is a JavaScript object. Keys keep
insertion order; assigning null to a key keeps the key present. We model it
as an association list from session id to Option Player. -/

/-- Reading all_players_list[sid] through the code's pervasive
null/undefined guard (route.js checks are always of the form
all_players_list[x] != null or a truthiness test): some p exactly when the
key is present and not null. -/
def regGet : List (String × Option Player) → String → Option Player
  | [], _ => none
  | (k, v) :: rest, sid => if k = sid then v else regGet rest sid

/-- Whether the key is present at all (JavaScript would report it in
for-in even when its value is null). -/
def hasKey : List (String × Option Player) → String → Bool
  | [], _ => false
  | (k, _) :: rest, sid => k = sid || hasKey rest sid

/-- Property assignment all_players_list[sid] = v: update in place when the
key exists, append otherwise (JavaScript object key semantics). -/
def regSet (reg : List (String × Option Player)) (sid : String)
    (v : Option Player) : List (String × Option Player) :=
  if hasKey reg sid then
    reg.map (fun kv => if kv.1 = sid then (sid, v) else kv)
  else
    reg ++ [(sid, v)]

/-- Pointwise function update, for roomCount / membership / round_results. -/
def updFn {α β : Type} [DecidableEq α] (f : α → β) (a : α) (b : β) : α → β :=
  fun x => if x = a then b else f x

/-- The process-wide state both modules share (app.js lines 40-60 and the
Route closure): all_players_list, roomCount, socket room membership,
round_in_progress, num_guests, round_results, and the diff_lvl of the player
object currently referenced by the module-level variable player that the
change_room handler reads (route.js line 382); none when that variable is
still unset. diff_lvl is the only field the code ever reads through that
variable, and it is only written while the same object is the referent, so
tracking the field value is a faithful rendering of the reference. -/
structure ServerState where
  all_players_list : List (String × Option Player)
  roomCount : Int → Int
  membership : String → Option Int
  round_in_progress : Bool
  num_guests : Nat
  round_results : Int → List (String × Option Int)
  globalRoom : Option Int

/-- The state right after app.js lines 52-60 run: empty registry, zero
occupancy everywhere, no round in progress, no results. -/
def initState : ServerState :=
  { all_players_list := []
    roomCount := fun _ => 0
    membership := fun _ => none
    round_in_progress := false
    num_guests := 0
    round_results := fun _ => []
    globalRoom := none }

/-! ## JavaScript string trimming and parseInt, as route.js applies them to
wire values (String.prototype.trim at lines 235-240, parseInt at line 198). -/

/-- Drop leading whitespace characters. -/
def trimCharsLeft : List Char → List Char
  | [] => []
  | c :: cs => if c.isWhitespace then trimCharsLeft cs else c :: cs

/-- JavaScript String.prototype.trim: drop whitespace on both ends. -/
def jsTrim (s : String) : String :=
  String.mk (trimCharsLeft ((trimCharsLeft s.data.reverse).reverse))

/-- Value of a run of decimal digit characters. -/
def decValue (cs : List Char) : Nat :=
  cs.foldl (fun a c => a * 10 + (c.toNat - 48)) 0

/-- Value of one hexadecimal digit character, none when it is not one. -/
def hexDigitVal (c : Char) : Option Nat :=
  if c.isDigit then some (c.toNat - 48)
  else if 'a' ≤ c ∧ c ≤ 'f' then some (c.toNat - 87)
  else if 'A' ≤ c ∧ c ≤ 'F' then some (c.toNat - 55)
  else none

/-- Value of a run of hexadecimal digit characters. -/
def hexValue (cs : List Char) : Nat :=
  cs.foldl (fun a c => a * 16 + (hexDigitVal c).getD 0) 0

/-- JavaScript parseInt(s) with no radix argument: skip leading whitespace,
read an optional sign, detect a 0x/0X prefix, take the longest prefix of
digits in the detected base, and return NaN (none) when that prefix is
empty. -/
def jsParseInt (s : String) : Option Int :=
  let cs0 := (jsTrim s).data
  let signAndRest : Int × List Char :=
    match cs0 with
    | '-' :: rest => (-1, rest)
    | '+' :: rest => (1, rest)
    | _ => (1, cs0)
  let sign := signAndRest.1
  let cs := signAndRest.2
  match cs with
  | '0' :: x :: rest =>
    if x = 'x' ∨ x = 'X' then
      let ds := rest.takeWhile (fun c => (hexDigitVal c).isSome)
      if ds = [] then none else some (sign * (hexValue ds : Int))
    else
      some (sign * (decValue (cs.takeWhile Char.isDigit) : Int))
  | _ =>
    let ds := cs.takeWhile Char.isDigit
    if ds = [] then none else some (sign * (decValue ds : Int))

/-! ## Worker functions of the Router (route.js lines 177-321) -/

/-- route.js determineDifficultyLevel (lines 177-212): validate the request
in order (missing data, missing profile, missing difficulty level, parseInt
NaN, out of range), emitting error_client_ready and returning -1 on failure,
else returning the parsed level. -/
def determineDifficultyLevel (request : Req) : Int × List Msg :=
  match request.data with
  | none =>
    (-1, [Msg.emit "error_client_ready" (Payload.pError "No request data was provided" "")])
  | some data =>
    match data.profile with
    | none =>
      (-1, [Msg.emit "error_client_ready" (Payload.pError "No user profile was provided" "")])
    | some profile =>
      match profile.difficulty_level with
      | none =>
        (-1, [Msg.emit "error_client_ready" (Payload.pError "No difficulty level was provided" "")])
      | some dl =>
        match jsParseInt dl with
        | none =>
          (-1, [Msg.emit "error_client_ready" (Payload.pError "Invalid difficulty level" dl)])
        | some diff_lvl =>
          if diff_lvl < MIN_ROOM_NUM ∨ diff_lvl ≥ MIN_ROOM_NUM + NUM_ROOMS then
            (-1, [Msg.emit "error_client_ready" (Payload.pError "Difficulty level is out of range" dl)])
          else
            (diff_lvl, [])

/-- route.js determineTag (lines 232-242): take profile.player_tag, or
synthesize a Guest tag (consuming num_guests) when it is missing, null or
all-whitespace; the result is trimmed either way. -/
def determineTag (num_guests : Nat) (profile : Profile) : String × Nat :=
  let tagAndGuests : String × Nat :=
    match profile.player_tag with
    | none => ("Guest " ++ toString num_guests, num_guests + 1)
    | some t =>
      if jsTrim t = "" then ("Guest " ++ toString num_guests, num_guests + 1)
      else (t, num_guests)
  (jsTrim tagAndGuests.1, tagAndGuests.2)

/-- route.js attachPlayerToRoom (lines 248-256): increment
roomCount[diff_lvl], join the socket to the room, and room-broadcast
gamer_entered_room (sender excluded) with the tag and points. -/
def attachPlayerToRoom (st : ServerState) (sid : String) (player : Player) :
    ServerState × List Msg :=
  let lvl := player.diff_lvl
  ({ st with
      roomCount := updFn st.roomCount lvl (st.roomCount lvl + 1)
      membership := updFn st.membership sid (some lvl) },
    [Msg.roomBroadcast (toString lvl) "gamer_entered_room"
      (Payload.pGamer player.player_tag player.points)])

/-- route.js detachPlayerFromRoom (lines 302-321): decrement
roomCount[diff_lvl], leave the room, and room-broadcast gamer_exited_room
only when the room still has occupants after the decrement. -/
def detachPlayerFromRoom (st : ServerState) (sid : String) (p : Player) :
    ServerState × List Msg :=
  let lvl := p.diff_lvl
  let rc := st.roomCount lvl - 1
  let st1 := { st with
      roomCount := updFn st.roomCount lvl rc
      membership := updFn st.membership sid none }
  (st1,
    if rc > 0 then
      [Msg.roomBroadcast (toString lvl) "gamer_exited_room" (Payload.pTag p.player_tag)]
    else [])

/-- route.js emitPlayersAlreadyInRoom (lines 261-273) builds this list: the
tag and points of every non-null registry entry whose diff_lvl matches, in
registry order. It is also the per-room list playTick and createRoundResults
build (timer.js lines 370-377 and 423-430). -/
def gamersInRoom (reg : List (String × Option Player)) (lvl : Int) :
    List (String × Option Int) :=
  reg.filterMap fun kv =>
    match kv.2 with
    | some p => if p.diff_lvl = lvl then some (p.player_tag, p.points) else none
    | none => none

/-- route.js emitPlayersAlreadyInRoom (lines 261-273). -/
def emitPlayersAlreadyInRoom (st : ServerState) (player : Player) : List Msg :=
  [Msg.emit "gamers_already_in_room"
    (Payload.pLeaders (gamersInRoom st.all_players_list player.diff_lvl))]

/-- route.js emitRoundEventAndResults (lines 279-296): round_started with
the play seconds while a round is in progress; otherwise round_ended with
the lobby seconds, plus room_round_results when that room's stored results
are non-empty. -/
def emitRoundEventAndResults (st : ServerState) (room : Int) : List Msg :=
  if st.round_in_progress then
    [Msg.emit "round_started" (Payload.pInt (SECS_IN_COMPLETE_CYCLE - SECS_IN_LOBBY))]
  else
    [Msg.emit "round_ended" (Payload.pInt SECS_IN_LOBBY)] ++
      (if (st.round_results room).length ≠ 0 then
        [Msg.emit "room_round_results" (Payload.pResults (st.round_results room))]
      else [])

/-! ## Route handlers (route.js lines 332-516) -/

/-- route.js client_ready (lines 332-356). On a validation error the state
is untouched and only the error message goes out. When the session already
has a registry record, only its ref_count is incremented
(checkClientAlreadyConnected, lines 217-227). Otherwise a new record is
created (the module-level player variable is set to it, so globalRoom
becomes its level), confirmed, attached to its room and the room sync
messages are emitted. -/
def clientReady (st : ServerState) (sid : String) (request : Req) :
    ServerState × List Msg :=
  let dd := determineDifficultyLevel request
  if dd.1 = -1 then
    (st, dd.2)
  else
    match regGet st.all_players_list sid with
    | some p =>
      let reg1 := regSet st.all_players_list sid (some { p with ref_count := p.ref_count + 1 })
      ({ st with all_players_list := reg1 }, [])
    | none =>
      match request.data.bind (fun d => d.profile) with
      | none => (st, [])
      | some profile =>
        let tagAndGuests := determineTag st.num_guests profile
        let player : Player :=
          { player_tag := tagAndGuests.1
            points := some 0
            diff_lvl := dd.1
            incomplete_round := st.round_in_progress
            ref_count := 1 }
        let st1 := { st with
            num_guests := tagAndGuests.2
            all_players_list := regSet st.all_players_list sid (some player)
            globalRoom := some dd.1 }
        let m1 := [Msg.emit "client_confirmed" (Payload.pPlayer player)]
        let attach := attachPlayerToRoom st1 sid player
        let st2 := attach.1
        (st2, m1 ++ attach.2 ++ emitPlayersAlreadyInRoom st2 player
          ++ emitRoundEventAndResults st2 dd.1)

/-- route.js change_room (lines 372-412). The handler reads prev_level from
the module-level player variable (line 382) - the last player object a
client_ready creation or change_room call stored there, not necessarily the
requester - then repoints that variable at the requester (line 385). When
the validated new level equals that stale prev_level it returns with no
further work; otherwise it detaches the requester from its room, rewrites
its diff_lvl, attaches it to the new room and emits the sync bundle using
prev_level for the round results. When the module-level variable or the
requester's record is unset the JavaScript throws on the field access and
the handler dies with no further state change. -/
def changeRoom (st : ServerState) (sid : String) (request : Req) :
    ServerState × List Msg :=
  let dd := determineDifficultyLevel request
  if dd.1 = -1 then
    (st, dd.2)
  else
    let new_level := dd.1
    match st.globalRoom with
    | none => (st, [])
    | some prev_level =>
      match regGet st.all_players_list sid with
      | none =>
        let st1 := { st with globalRoom := none }
        (st1, [])
      | some p =>
        let st1 := { st with globalRoom := some p.diff_lvl }
        if new_level = prev_level then
          (st1, [])
        else
          let det := detachPlayerFromRoom st1 sid p
          let p1 := { p with diff_lvl := new_level }
          let st2 := { det.1 with
              all_players_list := regSet det.1.all_players_list sid (some p1)
              globalRoom := some new_level }
          let att := attachPlayerToRoom st2 sid p1
          let st3 := att.1
          (st3, det.2 ++ att.2 ++ emitPlayersAlreadyInRoom st3 p1
            ++ emitRoundEventAndResults st3 prev_level)

/-- route.js disconnect (lines 420-441): silently return when no player is
bound; decrement ref_count and return while it stays non-zero; at zero,
detach from the room and null out the registry entry (the key stays,
mapped to null). -/
def disconnect (st : ServerState) (sid : String) : ServerState × List Msg :=
  match regGet st.all_players_list sid with
  | none => (st, [])
  | some p =>
    let rc := p.ref_count - 1
    if rc ≠ 0 then
      let reg1 := regSet st.all_players_list sid (some { p with ref_count := rc })
      ({ st with all_players_list := reg1 }, [])
    else
      let det := detachPlayerFromRoom st sid p
      ({ det.1 with all_players_list := regSet det.1.all_players_list sid none },
        det.2)

/-- route.js player_scored (lines 446-488): validate session, player, data
and points, emitting the matching error; during a round store the reported
points; in lobby ignore the message, except that a null points field is
reset to 0. -/
def playerScored (st : ServerState) (sid : String) (request : ScoreReq) :
    ServerState × List Msg :=
  if !request.hasSession then
    (st, [Msg.emit "error_unrecognized_player" (Payload.pErrStr "session is not set")])
  else
    match regGet st.all_players_list sid with
    | none =>
      (st, [Msg.emit "error_unrecognized_player" (Payload.pErrStr "session.player is not set")])
    | some p =>
      match request.data with
      | none =>
        (st, [Msg.emit "error_player_scored" (Payload.pErrStr "request.data is not set")])
      | some d =>
        match d.points with
        | none =>
          (st, [Msg.emit "error_player_scored" (Payload.pErrStr "request.data.points is not set")])
        | some pts =>
          if st.round_in_progress then
            let reg1 := regSet st.all_players_list sid (some { p with points := some pts })
            ({ st with all_players_list := reg1 }, [])
          else
            if p.points = none then
              let reg1 := regSet st.all_players_list sid (some { p with points := some 0 })
              ({ st with all_players_list := reg1 }, [])
            else
              (st, [])

/-- route.js request_final_score (lines 493-516): validate session and
player; while a round is in progress mark the player's round incomplete;
then emit final_round_score with the points and round_complete flag. -/
def requestFinalScore (st : ServerState) (sid : String) (hasSession : Bool) :
    ServerState × List Msg :=
  if !hasSession then
    (st, [Msg.emit "error_unrecognized_player" (Payload.pErrStr "session is not set")])
  else
    match regGet st.all_players_list sid with
    | none =>
      (st, [Msg.emit "error_unrecognized_player" (Payload.pErrStr "session.player is not set")])
    | some p =>
      if st.round_in_progress then
        let p1 : Player := { p with incomplete_round := true }
        let reg1 := regSet st.all_players_list sid (some p1)
        ({ st with all_players_list := reg1 },
          [Msg.emit "final_round_score" (Payload.pFinalScore p1.points (!p1.incomplete_round))])
      else
        (st, [Msg.emit "final_round_score" (Payload.pFinalScore p.points (!p.incomplete_round))])

/-! ## Timer callbacks that touch the shared state (src/timer.js) -/

/-- The room ids, MIN_ROOM_NUM to MIN_ROOM_NUM + NUM_ROOMS - 1, in loop
order. -/
def roomsList : List Int := [0, 1, 2, 3]

/-- The descending-by-points sort the broadcasts apply,
array.sort(function(a,b) \\ return b.points - a.points \\); a null points
field numerically coerces to 0. Insertion sort is stable, matching the
V8 array sort on these small arrays. -/
def sortLeadersDesc (l : List (String × Option Int)) : List (String × Option Int) :=
  l.insertionSort fun a b => (b.2.getD 0) ≤ (a.2.getD 0)

/-- timer.js playTick (lines 362-396): for each room with non-zero
occupancy, broadcast play_timer_update with the seconds of play remaining
and that room's descending scoreboard. Touches no shared state. -/
def playTickMsgs (st : ServerState) (secsRemaining : Int) : List Msg :=
  roomsList.filterMap fun room =>
    if st.roomCount room ≠ 0 then
      some (Msg.ioRoomBroadcast (toString room) "play_timer_update"
        (Payload.pPlayTick (secsRemaining - SECS_IN_LOBBY)
          (sortLeadersDesc (gamersInRoom st.all_players_list room))))
    else none

/-- timer.js lobbyTick (lines 399-413): for each room with non-zero
occupancy, broadcast lobby_timer_update with the seconds remaining. -/
def lobbyTickMsgs (st : ServerState) (secsRemaining : Int) : List Msg :=
  roomsList.filterMap fun room =>
    if st.roomCount room ≠ 0 then
      some (Msg.ioRoomBroadcast (toString room) "lobby_timer_update"
        (Payload.pInt secsRemaining))
    else none

/-- timer.js firstPlayTick (lines 279-295): zero every registered player's
points and clear incomplete_round, set round_in_progress, broadcast
round_started to everyone, then run a playTick. -/
def firstPlayTick (st : ServerState) (secsRemaining : Int) :
    ServerState × List Msg :=
  let st1 := { st with
      all_players_list := st.all_players_list.map fun kv =>
        match kv.2 with
        | some p => (kv.1, some { p with points := some 0, incomplete_round := false })
        | none => kv
      round_in_progress := true }
  (st1, [Msg.broadcastAll "round_started" (Payload.pInt (SECS_IN_COMPLETE_CYCLE - SECS_IN_LOBBY))]
    ++ playTickMsgs st1 secsRemaining)

/-- timer.js createRoundResults (lines 416-431): reset every room's result
list and refill it with each registered player's tag and points. -/
def createRoundResults (st : ServerState) : Int → List (String × Option Int) :=
  fun r =>
    if MIN_ROOM_NUM ≤ r ∧ r < MIN_ROOM_NUM + NUM_ROOMS then
      gamersInRoom st.all_players_list r
    else
      st.round_results r

/-- timer.js broadcastRoundResults (lines 434-445): for each room with
non-zero occupancy and a non-empty result list, sort that list in place
(descending by points) and broadcast it as room_round_results. -/
def broadcastRoundResults (roomCount : Int → Int)
    (round_results : Int → List (String × Option Int)) :
    (Int → List (String × Option Int)) × List Msg :=
  roomsList.foldl
    (fun acc room =>
      if roomCount room ≠ 0 ∧ (acc.1 room).length ≠ 0 then
        let sorted := sortLeadersDesc (acc.1 room)
        (updFn acc.1 room sorted,
          acc.2 ++ [Msg.ioRoomBroadcast (toString room) "room_round_results"
            (Payload.pResults sorted)])
      else acc)
    (round_results, [])

/-- timer.js firstLobbyTick (lines 302-312): clear round_in_progress,
broadcast round_ended to everyone, compile and broadcast the round results,
then run a lobbyTick. -/
def firstLobbyTick (st : ServerState) (secsRemaining : Int) :
    ServerState × List Msg :=
  let st1 := { st with round_in_progress := false }
  let rr := createRoundResults st1
  let bb := broadcastRoundResults st1.roomCount rr
  let st2 := { st1 with round_results := bb.1 }
  (st2, [Msg.broadcastAll "round_ended" (Payload.pInt SECS_IN_LOBBY)]
    ++ bb.2 ++ lobbyTickMsgs st2 secsRemaining)

/-! ## Reachable server states: every inbound message and every
state-mutating timer callback, in any order, starting from the fresh
process. The tick dispatch conditions live in timerTick; letting enterPlay
and enterLobby fire at arbitrary times only enlarges the set of states, so
an invariant proved over all event lists holds in every state the real
server reaches. -/

/-- One serialized unit of work on the shared state. -/
inductive Event where
  | clientReady (sid : String) (request : Req)
  | changeRoom (sid : String) (request : Req)
  | disconnect (sid : String)
  | playerScored (sid : String) (request : ScoreReq)
  | requestFinalScore (sid : String) (hasSession : Bool)
  | enterPlay (secsRemaining : Int)
  | enterLobby (secsRemaining : Int)
  deriving DecidableEq

/-- The state transition of one event (messages discarded). -/
def step (st : ServerState) (e : Event) : ServerState :=
  match e with
  | .clientReady sid r => (clientReady st sid r).1
  | .changeRoom sid r => (changeRoom st sid r).1
  | .disconnect sid => (disconnect st sid).1
  | .playerScored sid r => (playerScored st sid r).1
  | .requestFinalScore sid h => (requestFinalScore st sid h).1
  | .enterPlay s => (firstPlayTick st s).1
  | .enterLobby s => (firstLobbyTick st s).1

/-- The state after a list of events runs from process start. -/
def run (evs : List Event) : ServerState :=
  evs.foldl step initState

/-- A state some sequence of events produces from process start. -/
def Reachable (st : ServerState) : Prop :=
  ∃ evs : List Event, st = run evs

/-- A predicate over every non-null registry entry's points field. -/
def RegPred (Q : Option Int → Prop) (reg : List (String × Option Player)) : Prop :=
  ∀ kv ∈ reg, ∀ p : Player, kv.2 = some p → Q p.points

/-- A bound the inbound score of one event satisfies; timer events and
rejected messages carry no score. -/
def eventPointsOk (Q : Option Int → Prop) : Event → Prop
  | .playerScored _ r =>
    match r.data with
    | some d =>
      match d.points with
      | some pts => Q (some pts)
      | none => True
    | none => True
  | _ => True

/-- Whether one event's inbound score (if any) is non-negative. -/
def eventScoreNonNeg (e : Event) : Bool :=
  match e with
  | .playerScored _ r =>
    match r.data with
    | some d =>
      match d.points with
      | some pts => decide (0 ≤ pts)
      | none => true
    | none => true
  | _ => true

/-! ## Concrete fixtures used by counterexamples and witnesses -/

/-- A well-formed client_ready / change_room request for a room and tag. -/
def reqRoom (room : String) (tag : String) : Req :=
  { data := some { profile := some { difficulty_level := some room, player_tag := some tag } } }

/-- The spec's next-cycle formula from claim C1: ceiling division,
next_cycle = ceil(now / (CYCLE*1000)) * (CYCLE*1000). -/
def claimNextCycle (now : Nat) : Nat :=
  ((now + (MSECS_IN_COMPLETE_CYCLE - 1)) / MSECS_IN_COMPLETE_CYCLE) * MSECS_IN_COMPLETE_CYCLE

/-- The boundary the code actually computes toward: one full cycle past the
floor, next_cycle = (floor(now / (CYCLE*1000)) + 1) * (CYCLE*1000). It
agrees with the ceiling form except when now is an exact cycle multiple. -/
def codeNextCycle (now : Nat) : Nat :=
  (now / MSECS_IN_COMPLETE_CYCLE + 1) * MSECS_IN_COMPLETE_CYCLE

/-- Player "a" joins room 1, then player "b" joins room 2 (so the
module-level player variable last pointed at "b", whose room is 2). -/
def c2Trace : List Event :=
  [Event.clientReady "a" (reqRoom "1" "A"), Event.clientReady "b" (reqRoom "2" "B")]

/-- The state c2Trace produces. -/
def c2State : ServerState := run c2Trace

/-- Player "a" asks to change to room 1: the room "a" is already in. -/
def c2Req : Req := reqRoom "1" "A"

/-- The request attaching the single player of the C3 counterexample. -/
def c3Req : Req := reqRoom "1" "Ann"

/-- One player in room 1, no round in progress: a Lobby state. -/
def c4wTrace : List Event := [Event.clientReady "a" (reqRoom "1" "Alice")]

/-- The state c4wTrace produces. -/
def c4wState : ServerState := run c4wTrace

/-- A player joins, Play begins, then the client reports a score of -5,
which the server stores unchecked. -/
def c8ceTrace : List Event := [Event.clientReady "a" (reqRoom "2" "Al"), Event.enterPlay 180,
  Event.playerScored "a" { hasSession := true, data := some { points := some (-5) } }]

/-- The state c8ceTrace produces. -/
def c8ceState : ServerState := run c8ceTrace

/-- Like c8ceTrace but with a non-negative reported score. -/
def c8wTrace : List Event := [Event.clientReady "a" (reqRoom "2" "Al"), Event.enterPlay 180,
  Event.playerScored "a" { hasSession := true, data := some { points := some 7 } }]

/-- The record c8wTrace leaves in the registry for session "a". -/
def c8wPlayer : Player :=
  { player_tag := "Al", points := some 7, diff_lvl := 2, incomplete_round := false, ref_count := 1 }

/-- Player "a" in room 1, player "b" in room 2 (stale module-level player
variable pointing at "b"). -/
def c10Trace : List Event :=
  [Event.clientReady "a" (reqRoom "1" "A"), Event.clientReady "b" (reqRoom "2" "B")]

/-- The state c10Trace produces. -/
def c10State : ServerState := run c10Trace

/-- Player "a" asks for room "2.9", which parseInt reads as 2. -/
def c10Req : Req := reqRoom "2.9" "A"

/-! ## Registry lemmas -/

theorem hasKey_false_ne {reg : List (String × Option Player)} {sid : String}
    (h : hasKey reg sid = false) : ∀ kv ∈ reg, kv.1 ≠ sid := by
  induction reg with
  | nil => intro kv hkv; cases hkv
  | cons head tail ih =>
    intro kv hkv
    simp only [hasKey, Bool.or_eq_false_iff, decide_eq_false_iff_not] at h
    rcases List.mem_cons.mp hkv with hkv | hkv
    · rw [hkv]; exact h.1
    · exact ih h.2 kv hkv

theorem regGet_of_hasKey_false {reg : List (String × Option Player)} {sid : String}
    (h : hasKey reg sid = false) : regGet reg sid = none := by
  induction reg with
  | nil => rfl
  | cons head tail ih =>
    simp only [hasKey, Bool.or_eq_false_iff, decide_eq_false_iff_not] at h
    simp only [regGet, if_neg h.1]
    exact ih h.2

theorem regSet_of_hasKey_false {reg : List (String × Option Player)} {sid : String}
    {v : Option Player} (h : hasKey reg sid = false) :
    regSet reg sid v = reg ++ [(sid, v)] := by
  simp [regSet, h]

theorem regGet_append_self {reg : List (String × Option Player)} {sid : String}
    {v : Option Player} (h : hasKey reg sid = false) :
    regGet (reg ++ [(sid, v)]) sid = v := by
  induction reg with
  | nil => simp [regGet]
  | cons head tail ih =>
    simp only [hasKey, Bool.or_eq_false_iff, decide_eq_false_iff_not] at h
    simp only [List.cons_append, regGet, if_neg h.1]
    exact ih h.2

theorem hasKey_append_self {reg : List (String × Option Player)} {sid : String}
    {v : Option Player} : hasKey (reg ++ [(sid, v)]) sid = true := by
  induction reg with
  | nil => simp [hasKey]
  | cons head tail ih => simp [hasKey, ih]

theorem map_regSet_id {reg : List (String × Option Player)} {sid : String}
    {w : Option Player} (h : hasKey reg sid = false) :
    reg.map (fun kv => if kv.1 = sid then (sid, w) else kv) = reg := by
  induction reg with
  | nil => rfl
  | cons head tail ih =>
    simp only [hasKey, Bool.or_eq_false_iff, decide_eq_false_iff_not] at h
    simp only [List.map_cons, if_neg h.1, ih h.2]

theorem regSet_append_self {reg : List (String × Option Player)} {sid : String}
    {v w : Option Player} (h : hasKey reg sid = false) :
    regSet (reg ++ [(sid, v)]) sid w = reg ++ [(sid, w)] := by
  simp only [regSet, hasKey_append_self, if_true, List.map_append, map_regSet_id h]
  simp

theorem mem_regSet {reg : List (String × Option Player)} {sid : String}
    {v : Option Player} {kv : String × Option Player}
    (h : kv ∈ regSet reg sid v) : kv ∈ reg ∨ kv = (sid, v) := by
  unfold regSet at h
  by_cases hk : hasKey reg sid = true
  · rw [if_pos hk] at h
    obtain ⟨kv0, hkv0, heq⟩ := List.mem_map.mp h
    by_cases hc : kv0.1 = sid
    · right; rw [if_pos hc] at heq; exact heq.symm
    · left; rw [if_neg hc] at heq; exact heq ▸ hkv0
  · rw [if_neg hk] at h
    rcases List.mem_append.mp h with h1 | h1
    · exact Or.inl h1
    · right; simpa using h1

theorem regGet_mem {reg : List (String × Option Player)} {sid : String} {p : Player}
    (h : regGet reg sid = some p) : ∃ kv ∈ reg, kv.2 = some p := by
  induction reg with
  | nil => cases h
  | cons head tail ih =>
    unfold regGet at h
    by_cases hc : head.1 = sid
    · rw [if_pos hc] at h
      exact ⟨head, List.mem_cons_self _ _, h⟩
    · rw [if_neg hc] at h
      obtain ⟨kv, hkv, hp⟩ := ih h
      exact ⟨kv, List.mem_cons_of_mem _ hkv, hp⟩

theorem regPred_get {Q : Option Int → Prop} {reg : List (String × Option Player)}
    {sid : String} {p : Player} (hr : RegPred Q reg) (h : regGet reg sid = some p) :
    Q p.points := by
  obtain ⟨kv, hkv, hp⟩ := regGet_mem h
  exact hr kv hkv p hp

theorem regPred_regSet {Q : Option Int → Prop} {reg : List (String × Option Player)}
    {sid : String} {v : Option Player} (hr : RegPred Q reg)
    (hv : ∀ p : Player, v = some p → Q p.points) :
    RegPred Q (regSet reg sid v) := by
  intro kv hkv p hp
  rcases mem_regSet hkv with h | h
  · exact hr kv h p hp
  · exact hv p (by rw [h] at hp; exact hp)

/-! ## Registry-preservation facts for the handlers that leave
all_players_list untouched -/

theorem attach_reg_eq (st : ServerState) (sid : String) (player : Player) :
    (attachPlayerToRoom st sid player).1.all_players_list = st.all_players_list := rfl

theorem detach_reg_eq (st : ServerState) (sid : String) (p : Player) :
    (detachPlayerFromRoom st sid p).1.all_players_list = st.all_players_list := rfl

theorem firstLobbyTick_reg_eq (st : ServerState) (s : Int) :
    (firstLobbyTick st s).1.all_players_list = st.all_players_list := rfl

/-! ## One step preserves a pointwise points predicate -/

theorem regPred_step {Q : Option Int → Prop} (hQ0 : Q (some 0))
    (st : ServerState) (e : Event) (hr : RegPred Q st.all_players_list)
    (he : eventPointsOk Q e) : RegPred Q (step st e).all_players_list := by
  cases e with
  | clientReady sid r =>
    simp only [step, clientReady]
    split
    · exact hr
    · cases hg : regGet st.all_players_list sid with
      | some p =>
        refine regPred_regSet hr ?_
        intro q hq
        rw [Option.some_inj] at hq
        subst hq
        show Q p.points
        exact regPred_get hr hg
      | none =>
        cases hp : r.data.bind (fun d => d.profile) with
        | none => exact hr
        | some profile =>
          simp only [attach_reg_eq]
          refine regPred_regSet hr ?_
          intro q hq
          rw [Option.some_inj] at hq
          subst hq
          exact hQ0
  | changeRoom sid r =>
    simp only [step, changeRoom]
    split
    · exact hr
    · cases st.globalRoom with
      | none => exact hr
      | some prev =>
        cases hg : regGet st.all_players_list sid with
        | none => exact hr
        | some p =>
          simp only
          split
          · exact hr
          · simp only [attach_reg_eq, detach_reg_eq]
            refine regPred_regSet hr ?_
            intro q hq
            rw [Option.some_inj] at hq
            subst hq
            show Q p.points
            exact regPred_get hr hg
  | disconnect sid =>
    simp only [step, disconnect]
    cases hg : regGet st.all_players_list sid with
    | none => exact hr
    | some p =>
      simp only
      split
      · refine regPred_regSet hr ?_
        intro q hq
        rw [Option.some_inj] at hq
        subst hq
        show Q p.points
        exact regPred_get hr hg
      · simp only [detach_reg_eq]
        refine regPred_regSet hr ?_
        intro q hq
        cases hq
  | playerScored sid r =>
    simp only [step, playerScored]
    split
    · exact hr
    · cases hg : regGet st.all_players_list sid with
      | none => exact hr
      | some p =>
        simp only
        cases hd : r.data with
        | none => exact hr
        | some d =>
          simp only
          cases hpts : d.points with
          | none => exact hr
          | some pts =>
            simp only
            simp only [eventPointsOk, hd, hpts] at he
            split
            · refine regPred_regSet hr ?_
              intro q hq
              rw [Option.some_inj] at hq
              subst hq
              exact he
            · split
              · refine regPred_regSet hr ?_
                intro q hq
                rw [Option.some_inj] at hq
                subst hq
                exact hQ0
              · exact hr
  | requestFinalScore sid hasSession =>
    simp only [step, requestFinalScore]
    split
    · exact hr
    · cases hg : regGet st.all_players_list sid with
      | none => exact hr
      | some p =>
        simp only
        split
        · refine regPred_regSet hr ?_
          intro q hq
          rw [Option.some_inj] at hq
          subst hq
          show Q p.points
          exact regPred_get hr hg
        · exact hr
  | enterPlay s =>
    simp only [step, firstPlayTick]
    intro kv hkv p hp
    obtain ⟨kv0, hkv0, heq⟩ := List.mem_map.mp hkv
    cases hv : kv0.2 with
    | none =>
      rw [hv] at heq
      rw [← heq] at hp
      rw [hv] at hp
      exact absurd hp (by simp)
    | some q =>
      rw [hv] at heq
      rw [← heq] at hp
      simp only [Option.some_inj] at hp
      subst hp
      exact hQ0
  | enterLobby s =>
    simp only [step, firstLobbyTick_reg_eq]
    exact hr

/-! ## An event-list invariant, by folding -/

theorem regPred_foldl {Q : Option Int → Prop} (hQ0 : Q (some 0)) :
    ∀ (evs : List Event) (st : ServerState), RegPred Q st.all_players_list →
      (∀ e ∈ evs, eventPointsOk Q e) → RegPred Q (evs.foldl step st).all_players_list := by
  intro evs
  induction evs with
  | nil => intro st h _; exact h
  | cons e rest ih =>
    intro st h hok
    simp only [List.foldl_cons]
    exact ih (step st e)
      (regPred_step hQ0 st e h (hok e (List.mem_cons_self _ _)))
      (fun e2 he2 => hok e2 (List.mem_cons_of_mem _ he2))

theorem regPred_run {Q : Option Int → Prop} (hQ0 : Q (some 0))
    (evs : List Event) (hok : ∀ e ∈ evs, eventPointsOk Q e) :
    RegPred Q (run evs).all_players_list := by
  refine regPred_foldl hQ0 evs initState ?_ hok
  intro kv hkv; cases hkv

/-- Every reachable state has no null points field: created records carry 0,
round start resets to 0, and an accepted player_scored always stores the
(non-null) reported value. -/
theorem pointsDefined_reachable {st : ServerState} (h : Reachable st) :
    RegPred (fun pts => pts ≠ none) st.all_players_list := by
  obtain ⟨evs, rfl⟩ := h
  exact regPred_run (by simp) evs (by
    intro e he
    cases e with
    | playerScored sid r =>
      cases hd : r.data with
      | none => simp [eventPointsOk, hd]
      | some d =>
        cases hpts : d.points with
        | none => simp [eventPointsOk, hd, hpts]
        | some pts => simp [eventPointsOk, hd, hpts]
    | clientReady sid r => trivial
    | changeRoom sid r => trivial
    | disconnect sid => trivial
    | requestFinalScore sid h2 => trivial
    | enterPlay s => trivial
    | enterLobby s => trivial)

/-! ## Claim theorems -/

/-- Claim C1, counterexample. At now = 1000 ms the claim's formula
delay = next_cycle - now + INIT_OFFSET gives 178990 ms, but start computes
a delay of -10 ms: the code reduces the gap modulo 1000 before adding the
offset (timer.js line 484), so the one-shot aims at the next whole second,
not the next cycle boundary. -/
theorem c1_counterexample :
    (start 1000).delay = -10 ∧
    ((claimNextCycle 1000 : Int) - 1000 + initMSecOffset) = 178990 ∧
    (start 1000).delay ≠ (claimNextCycle 1000 : Int) - 1000 + initMSecOffset := by
  decide

/-- Claim C1 as amended. At Clock start with wall clock now,
msecUntilNextGame is the distance to next_cycle = (floor(now/180000)+1)*180000;
secs_remaining is initialized to floor((next_cycle - now)/1000); the
one-shot delay is ((next_cycle - now) mod 1000) + INIT_OFFSET, aiming the
first tick at the next whole-second boundary (10 ms early), and the
recurring interval handed over is NORMAL. -/
theorem c1_start_amended (now : Nat) :
    msecUntilNextGame now = codeNextCycle now - now ∧
    (start now).secsRemaining = (((codeNextCycle now - now) / 1000 : Nat) : Int) ∧
    (start now).delay = (((codeNextCycle now - now) % 1000 : Nat) : Int) + initMSecOffset ∧
    (start now).interval = NORMAL_TIMER_INTERVAL := by
  have h : msecUntilNextGame now = codeNextCycle now - now := by
    unfold msecUntilNextGame codeNextCycle MSECS_IN_COMPLETE_CYCLE
    omega
  refine ⟨h, ?_, ?_, rfl⟩
  · simp [start, h]
  · simp [start, h]

/-- Claim C5, counterexample. On the tick entered with secs_remaining = 30 =
LOBBY a Play-tick is still performed (timer.js line 326 tests with >=), so
the claimed equivalence with secs_remaining > LOBBY is false. -/
theorem c5_counterexample :
    TickAct.playTick ∈ (timerTick 0 ⟨30, NORMAL_TIMER_INTERVAL⟩).2 ∧
    ¬ ((30 : Int) > SECS_IN_LOBBY) := by
  decide

/-- Claim C5 as amended. On an ordinary tick a Play-tick is performed iff
secs_remaining >= LOBBY at entry, and on the last Play second
(secs_remaining = LOBBY) the tick performs exactly the Play-tick, then
enter-Lobby immediately after it, then fine calibration. -/
theorem c5_play_dispatch_amended (now : Nat) (cs : ClockState) :
    (TickAct.playTick ∈ (timerTick now cs).2 ↔ SECS_IN_LOBBY ≤ cs.secsRemaining) ∧
    (cs.secsRemaining = SECS_IN_LOBBY →
      (timerTick now cs).2 = [TickAct.playTick, TickAct.firstLobbyTick, TickAct.calibrateTimer]) := by
  constructor
  · unfold timerTick
    simp only [SECS_PER_CALIBRATION, Int.emod_one, if_true]
    split_ifs with h1 h2 h3 h4 <;> simp_all [SECS_IN_LOBBY]
  · intro hs
    unfold timerTick
    rw [hs]
    simp [SECS_PER_CALIBRATION, Int.emod_one]

/-- Claim C5 amended, witness at secs_remaining = 30. -/
theorem c5_play_dispatch_witness :
    (TickAct.playTick ∈ (timerTick 0 ⟨30, NORMAL_TIMER_INTERVAL⟩).2) ∧
    (timerTick 0 ⟨30, NORMAL_TIMER_INTERVAL⟩).2
      = [TickAct.playTick, TickAct.firstLobbyTick, TickAct.calibrateTimer] :=
  ⟨(c5_play_dispatch_amended 0 ⟨30, NORMAL_TIMER_INTERVAL⟩).1.mpr (by decide),
    (c5_play_dispatch_amended 0 ⟨30, NORMAL_TIMER_INTERVAL⟩).2 rfl⟩

/-- Claim C6. Coarse adjustment runs on a tick iff that tick was entered
with secs_remaining = LOBBY - 1; it rewrites secs_remaining by the claimed
max/min formula over actual = floor((msec_until_next_cycle + 500)/1000);
and it never drops more than MAX_SKIP_FWD = 9 seconds in one cycle. -/
theorem c6_coarse_adjust (now : Nat) (cs : ClockState) (s : Int) :
    (TickAct.adjustLobbySecs ∈ (timerTick now cs).2 ↔ cs.secsRemaining = SECS_IN_LOBBY - 1) ∧
    (adjustLobbySecs now s =
      if actualSecRemaining now ≠ s then
        max (s - SECS_MAX_SKIP_FWD) (min SECS_IN_LOBBY (actualSecRemaining now))
      else s) ∧
    (s - adjustLobbySecs now s ≤ SECS_MAX_SKIP_FWD) := by
  refine ⟨?_, rfl, ?_⟩
  · unfold timerTick
    simp only [SECS_PER_CALIBRATION, Int.emod_one, if_true]
    split_ifs with h1 h2 h3 h4 <;> simp_all [SECS_IN_LOBBY]
    omega
  · have hle := le_max_left (s - SECS_MAX_SKIP_FWD) (min SECS_IN_LOBBY (actualSecRemaining now))
    simp only [adjustLobbySecs]
    unfold SECS_MAX_SKIP_FWD at *
    split_ifs <;> omega

/-- Claim C7. Fine calibration: the error is a signed offset in [-500, 499];
with large-skew off the interval is FAST above ERR_THRESHOLD, SLOW below
-ERR_THRESHOLD, else NORMAL; with large-skew on, FASTER/SLOWER override
beyond ERR_THRESHOLD_LARGE; FASTER/SLOWER are chosen only in that mode and
beyond that threshold; the recurring timer is cancelled and reinstalled
exactly when the chosen interval differs from the current one; and the
recurring tick invokes calibration every time. -/
theorem c7_fine_calibration (now : Nat) (cur : Int) (u : Bool) (cs : ClockState) :
    (-500 ≤ msecClkErr now ∧ msecClkErr now ≤ 499) ∧
    (newTimerInterval false now =
      if msecClkErr now > MSECS_MAX_CLK_ERR then FAST_TIMER_INTERVAL
      else if msecClkErr now < -MSECS_MAX_CLK_ERR then SLOW_TIMER_INTERVAL
      else NORMAL_TIMER_INTERVAL) ∧
    (newTimerInterval true now =
      if msecClkErr now > MSECS_EXTRA_MAX_CLK_ERR then FASTER_TIMER_INTERVAL
      else if msecClkErr now < -MSECS_EXTRA_MAX_CLK_ERR then SLOWER_TIMER_INTERVAL
      else newTimerInterval false now) ∧
    ((newTimerInterval u now = FASTER_TIMER_INTERVAL ∨ newTimerInterval u now = SLOWER_TIMER_INTERVAL)
        ↔ u = true ∧ (msecClkErr now > MSECS_EXTRA_MAX_CLK_ERR ∨ msecClkErr now < -MSECS_EXTRA_MAX_CLK_ERR)) ∧
    ((calibrateTimer u now cur).2 = true ↔ cur ≠ newTimerInterval u now) ∧
    (TickAct.calibrateTimer ∈ (timerTick now cs).2) := by
  have hbound : -500 ≤ msecClkErr now ∧ msecClkErr now ≤ 499 := by
    unfold msecClkErr
    omega
  refine ⟨hbound, ?_, ?_, ?_, ?_, ?_⟩
  · simp [newTimerInterval]
  · simp [newTimerInterval]
  · cases u <;>
      simp only [newTimerInterval] <;>
        split_ifs <;>
          simp_all [FASTER_TIMER_INTERVAL, FAST_TIMER_INTERVAL, NORMAL_TIMER_INTERVAL,
            SLOW_TIMER_INTERVAL, SLOWER_TIMER_INTERVAL, MSECS_MAX_CLK_ERR, MSECS_EXTRA_MAX_CLK_ERR]
  · by_cases h : cur = newTimerInterval u now <;> simp [calibrateTimer, h]
  · unfold timerTick
    simp only [SECS_PER_CALIBRATION, Int.emod_one, if_true]
    split_ifs <;> simp

/-- Claim C4. In every reachable state with round_in_progress = false
(Lobby), a player_scored handler leaves the entire server state - in
particular every registered player's points field - unchanged: the Play
branch is dead, and the Lobby branch's null-points repair never fires
because reachable states have no null points. -/
theorem c4_lobby_scores_frozen (st : ServerState) (hreach : Reachable st)
    (hlobby : st.round_in_progress = false) (sid : String) (request : ScoreReq) :
    (playerScored st sid request).1 = st := by
  have hinv := pointsDefined_reachable hreach
  unfold playerScored
  split
  · rfl
  · cases hg : regGet st.all_players_list sid with
    | none => rfl
    | some p =>
      simp only
      cases hd : request.data with
      | none => rfl
      | some d =>
        simp only
        cases hpts : d.points with
        | none => rfl
        | some pts =>
          simp only
          rw [if_neg (by rw [hlobby]; simp)]
          rw [if_neg (regPred_get hinv hg)]

/-- Claim C4, witness: a concrete Lobby state with one player, receiving a
score of 9, is untouched. -/
theorem c4_lobby_scores_frozen_witness :
    (playerScored c4wState "a" { hasSession := true, data := some { points := some 9 } }).1
      = c4wState :=
  c4_lobby_scores_frozen c4wState ⟨c4wTrace, rfl⟩ (by decide) "a" _

/-- Claim C8, counterexample. The server stores a reported score verbatim
during Play (route.js lines 474-477) with no sign or type check: after
c8ceTrace the registered player's points field is -5, a negative value, in
a reachable state. -/
theorem c8_counterexample :
    Reachable c8ceState ∧
    (regGet c8ceState.all_players_list "a").map Player.points = some (some (-5)) ∧
    ¬ (0 : Int) ≤ -5 :=
  ⟨⟨c8ceTrace, rfl⟩, by decide, by decide⟩

/-- Claim C8 as amended. points is an integer that the server initializes
to 0, resets to 0 at Play start, and otherwise sets to whatever an accepted
player_scored carried; it is therefore non-negative for every player in
every reachable state provided every accepted player_scored carried a
non-negative value - the server itself does not enforce the sign. -/
theorem c8_points_nonneg_amended (evs : List Event)
    (hok : ∀ e ∈ evs, eventScoreNonNeg e = true) :
    RegPred (fun pts => ∃ v : Int, pts = some v ∧ 0 ≤ v) (run evs).all_players_list := by
  refine regPred_run ⟨0, rfl, le_refl 0⟩ evs ?_
  intro e he
  have h2 := hok e he
  cases e with
  | playerScored sid r =>
    cases hd : r.data with
    | none => simp [eventPointsOk, hd]
    | some d =>
      cases hpts : d.points with
      | none => simp [eventPointsOk, hd, hpts]
      | some pts =>
        simp only [eventScoreNonNeg, hd, hpts, decide_eq_true_eq] at h2
        simp only [eventPointsOk, hd, hpts]
        exact ⟨pts, rfl, h2⟩
  | clientReady sid r => trivial
  | changeRoom sid r => trivial
  | disconnect sid => trivial
  | requestFinalScore sid h3 => trivial
  | enterPlay s => trivial
  | enterLobby s => trivial

/-- Claim C8 amended, witness: after a trace whose only reported score is
7, the stored record's points is a non-negative integer. -/
theorem c8_points_nonneg_witness :
    ∃ v : Int, c8wPlayer.points = some v ∧ 0 ≤ v :=
  c8_points_nonneg_amended c8wTrace (by decide) ("a", some c8wPlayer) (by decide) c8wPlayer rfl

/-- Claim C2. In the reachable state c2State the requester "a" sits in room
1 and the validated new room of c2Req is 1, yet change_room is not a no-op:
because the handler compares against the stale module-level player variable
(room 2, from "b"), it detaches and re-attaches "a" and sends messages -
among them a gamer_entered_room broadcast into room 1 - where the claim
(and the handler's own comment, route.js line 362) demand that absolutely
nothing happen. -/
theorem c2_change_room_same_level_bug :
    Reachable c2State ∧
    (regGet c2State.all_players_list "a").map Player.diff_lvl = some 1 ∧
    (determineDifficultyLevel c2Req).1 = 1 ∧
    Msg.roomBroadcast "1" "gamer_entered_room" (Payload.pGamer "A" (some 0))
      ∈ (changeRoom c2State "a" c2Req).2 ∧
    (changeRoom c2State "a" c2Req).2 ≠ [] :=
  ⟨⟨c2Trace, rfl⟩, by decide, by decide, by decide, by decide⟩

/-- Claim C9. determineDifficultyLevel validates in the order missing
request data, missing profile, missing room, not-an-integer, out-of-range,
emitting exactly one error_client_ready unicast to the originating session
with the corresponding error string; and for a room id that parses to
MIN_ROOM - 1 or MIN_ROOM + NUM_ROOMS, client_ready emits only the
out-of-range error and returns the server state unchanged (the session is
left un-attached). -/
theorem c9_validation :
    (∀ request : Req, request.data = none →
      determineDifficultyLevel request
        = (-1, [Msg.emit "error_client_ready"
            (Payload.pError "No request data was provided" "")])) ∧
    (∀ (request : Req) (d : ReqData), request.data = some d → d.profile = none →
      determineDifficultyLevel request
        = (-1, [Msg.emit "error_client_ready"
            (Payload.pError "No user profile was provided" "")])) ∧
    (∀ (request : Req) (d : ReqData) (prof : Profile), request.data = some d →
      d.profile = some prof → prof.difficulty_level = none →
      determineDifficultyLevel request
        = (-1, [Msg.emit "error_client_ready"
            (Payload.pError "No difficulty level was provided" "")])) ∧
    (∀ (request : Req) (d : ReqData) (prof : Profile) (s : String), request.data = some d →
      d.profile = some prof → prof.difficulty_level = some s → jsParseInt s = none →
      determineDifficultyLevel request
        = (-1, [Msg.emit "error_client_ready"
            (Payload.pError "Invalid difficulty level" s)])) ∧
    (∀ (request : Req) (d : ReqData) (prof : Profile) (s : String) (k : Int),
      request.data = some d → d.profile = some prof → prof.difficulty_level = some s →
      jsParseInt s = some k → (k < MIN_ROOM_NUM ∨ MIN_ROOM_NUM + NUM_ROOMS ≤ k) →
      determineDifficultyLevel request
        = (-1, [Msg.emit "error_client_ready"
            (Payload.pError "Difficulty level is out of range" s)])) ∧
    (∀ (st : ServerState) (sid : String) (request : Req) (d : ReqData) (prof : Profile)
      (s : String) (k : Int),
      request.data = some d → d.profile = some prof → prof.difficulty_level = some s →
      jsParseInt s = some k → (k = MIN_ROOM_NUM - 1 ∨ k = MIN_ROOM_NUM + NUM_ROOMS) →
      clientReady st sid request
        = (st, [Msg.emit "error_client_ready"
            (Payload.pError "Difficulty level is out of range" s)])) := by
  refine ⟨?_, ?_, ?_, ?_, ?_, ?_⟩
  · intro request h1
    simp [determineDifficultyLevel, h1]
  · intro request d h1 h2
    simp [determineDifficultyLevel, h1, h2]
  · intro request d prof h1 h2 h3
    simp [determineDifficultyLevel, h1, h2, h3]
  · intro request d prof s h1 h2 h3 h4
    simp [determineDifficultyLevel, h1, h2, h3, h4]
  · intro request d prof s k h1 h2 h3 h4 h5
    simp only [determineDifficultyLevel, h1, h2, h3, h4]
    rw [if_pos h5]
  · intro st sid request d prof s k h1 h2 h3 h4 h5
    have hrange : k < MIN_ROOM_NUM ∨ MIN_ROOM_NUM + NUM_ROOMS ≤ k := by
      unfold MIN_ROOM_NUM NUM_ROOMS at *
      omega
    have hdd : determineDifficultyLevel request
        = (-1, [Msg.emit "error_client_ready"
            (Payload.pError "Difficulty level is out of range" s)]) := by
      simp only [determineDifficultyLevel, h1, h2, h3, h4]
      rw [if_pos hrange]
    unfold clientReady
    rw [hdd]
    simp

/-- Claim C9, witness: a client_ready asking for room "-1" gets exactly the
out-of-range error and changes nothing. -/
theorem c9_validation_witness :
    clientReady initState "z" (reqRoom "-1" "T")
      = (initState, [Msg.emit "error_client_ready"
          (Payload.pError "Difficulty level is out of range" "-1")]) :=
  c9_validation.2.2.2.2.2 initState "z" (reqRoom "-1" "T") _ _ "-1" (-1)
    rfl rfl rfl (by decide) (Or.inl (by decide))

/-- Claim C10. A room string with a numeric prefix that parseInt maps into
range is accepted by the validator with no message, and a fresh client_ready
places the player in exactly that room (registry diff_lvl and transport
membership); the not-an-integer error is never emitted when parseInt
returns a value. The last conjunct evaluates the change_room corner the
stale module-level player variable breaks: in c10State ("a" in room 1, the
variable pointing at "b" in room 2) the request for room "2.9" (parsed as 2)
is accepted silently yet "a" stays in room 1. -/
theorem c10_parse_prefix :
    (∀ (request : Req) (d : ReqData) (prof : Profile) (s : String) (k : Int),
      request.data = some d → d.profile = some prof → prof.difficulty_level = some s →
      jsParseInt s = some k → MIN_ROOM_NUM ≤ k → k < MIN_ROOM_NUM + NUM_ROOMS →
      determineDifficultyLevel request = (k, [])) ∧
    (∀ (st : ServerState) (sid : String) (request : Req) (d : ReqData) (prof : Profile)
        (s : String) (k : Int),
      request.data = some d → d.profile = some prof → prof.difficulty_level = some s →
      jsParseInt s = some k → MIN_ROOM_NUM ≤ k → k < MIN_ROOM_NUM + NUM_ROOMS →
      hasKey st.all_players_list sid = false →
      (regGet ((clientReady st sid request).1).all_players_list sid).map Player.diff_lvl
          = some k ∧
      ((clientReady st sid request).1).membership sid = some k) ∧
    (∀ (request : Req) (d : ReqData) (prof : Profile) (s : String) (k : Int),
      request.data = some d → d.profile = some prof → prof.difficulty_level = some s →
      jsParseInt s = some k →
      Msg.emit "error_client_ready" (Payload.pError "Invalid difficulty level" s)
        ∉ (determineDifficultyLevel request).2) ∧
    (jsParseInt "2.9" = some 2 ∧
      (changeRoom c10State "a" c10Req).2 = [] ∧
      (regGet (changeRoom c10State "a" c10Req).1.all_players_list "a").map Player.diff_lvl
        = some 1) := by
  have haccept : ∀ (request : Req) (d : ReqData) (prof : Profile) (s : String) (k : Int),
      request.data = some d → d.profile = some prof → prof.difficulty_level = some s →
      jsParseInt s = some k → MIN_ROOM_NUM ≤ k → k < MIN_ROOM_NUM + NUM_ROOMS →
      determineDifficultyLevel request = (k, []) := by
    intro request d prof s k h1 h2 h3 h4 h5 h6
    have hrange : ¬ (k < MIN_ROOM_NUM ∨ MIN_ROOM_NUM + NUM_ROOMS ≤ k) := by
      unfold MIN_ROOM_NUM NUM_ROOMS at *
      omega
    simp only [determineDifficultyLevel, h1, h2, h3, h4]
    rw [if_neg hrange]
  refine ⟨haccept, ?_, ?_, by decide, by decide, by decide⟩
  · intro st sid request d prof s k h1 h2 h3 h4 h5 h6 hkey
    have hdd := haccept request d prof s k h1 h2 h3 h4 h5 h6
    have hne : ¬ ((determineDifficultyLevel request).1 = -1) := by
      rw [hdd]
      unfold MIN_ROOM_NUM at h5
      simp only
      omega
    simp only [clientReady]
    rw [if_neg hne]
    rw [regGet_of_hasKey_false hkey]
    simp only [h1, Option.some_bind, h2]
    simp only [attach_reg_eq, attachPlayerToRoom, hdd]
    rw [regSet_of_hasKey_false hkey]
    rw [regGet_append_self hkey]
    simp [updFn]
  · intro request d prof s k h1 h2 h3 h4
    by_cases hrange : (k < MIN_ROOM_NUM ∨ MIN_ROOM_NUM + NUM_ROOMS ≤ k)
    · simp only [determineDifficultyLevel, h1, h2, h3, h4]
      rw [if_pos hrange]
      simp
    · simp only [determineDifficultyLevel, h1, h2, h3, h4]
      rw [if_neg hrange]
      simp

/-- Claim C10, witness: "3abc" parses to 3 and is accepted with no error. -/
theorem c10_parse_prefix_witness :
    determineDifficultyLevel (reqRoom "3abc" "T") = (3, []) :=
  c10_parse_prefix.1 (reqRoom "3abc" "T") _ _ "3abc" 3 rfl rfl rfl
    (by decide) (by decide) (by decide)

/-- A request the validator does not reject carries a profile. -/
theorem determine_ok_profile {request : Req}
    (h : ¬ ((determineDifficultyLevel request).1 = -1)) :
    ∃ prof : Profile, request.data.bind (fun d => d.profile) = some prof := by
  cases hd : request.data with
  | none => exact absurd (by simp [determineDifficultyLevel, hd]) h
  | some d =>
    cases hp : d.profile with
    | none => exact absurd (by simp [determineDifficultyLevel, hd, hp]) h
    | some prof => exact ⟨prof, by simp [hd, hp]⟩

/-- Claim C3, counterexample. After one attach and the detach that takes
ref_count to zero, the registry is not bit-identical to its pre-attach
state: disconnect writes null into the key (route.js line 436) instead of
deleting it, so the key remains, mapped to null. -/
theorem c3_counterexample :
    ((disconnect ((clientReady initState "a" c3Req).1) "a").1).all_players_list
        = [("a", (none : Option Player))] ∧
    initState.all_players_list = [] ∧
    ¬ (([("a", (none : Option Player))] : List (String × Option Player)) = []) :=
  ⟨by decide, rfl, by decide⟩

/-- Claim C3 as amended. For a session with no registry key and no room
membership, an attach (client_ready that creates the record) followed by
the disconnect that returns ref_count to zero restores roomCount and
membership exactly, and restores the registry up to the detached session's
key remaining, mapped to null - which every lookup treats as absent. -/
theorem c3_attach_detach_amended (st : ServerState) (sid : String) (request : Req)
    (hkey : hasKey st.all_players_list sid = false)
    (hmem : st.membership sid = none) :
    ((disconnect ((clientReady st sid request).1) sid).1).roomCount = st.roomCount ∧
    ((disconnect ((clientReady st sid request).1) sid).1).membership = st.membership ∧
    (((disconnect ((clientReady st sid request).1) sid).1).all_players_list
        = st.all_players_list ∨
      ((disconnect ((clientReady st sid request).1) sid).1).all_players_list
        = st.all_players_list ++ [(sid, (none : Option Player))]) := by
  have hget : regGet st.all_players_list sid = none := regGet_of_hasKey_false hkey
  by_cases hdd : (determineDifficultyLevel request).1 = -1
  · have hcr : (clientReady st sid request).1 = st := by
      simp only [clientReady]
      rw [if_pos hdd]
    rw [hcr]
    have hdis : (disconnect st sid).1 = st := by
      simp only [disconnect]
      rw [hget]
    rw [hdis]
    exact ⟨rfl, rfl, Or.inl rfl⟩
  · obtain ⟨prof, hprof⟩ := determine_ok_profile hdd
    simp only [clientReady]
    rw [if_neg hdd]
    simp only [hget, hprof]
    simp only [attachPlayerToRoom, attach_reg_eq]
    rw [regSet_of_hasKey_false hkey]
    simp only [disconnect]
    rw [regGet_append_self hkey]
    simp only [detachPlayerFromRoom, updFn]
    norm_num
    refine ⟨?_, ?_, Or.inr (regSet_append_self hkey)⟩
    · funext r
      by_cases hr : r = (determineDifficultyLevel request).1 <;> simp [updFn, hr]
    · funext x
      by_cases hx : x = sid <;> simp [updFn, hx, hmem.symm]

/-- Claim C3 amended, witness: a fresh process, one attach of "w" to room 3
and one disconnect. -/
theorem c3_attach_detach_witness :
    ((disconnect ((clientReady initState "w" (reqRoom "3" "W")).1) "w").1).roomCount
        = initState.roomCount ∧
    ((disconnect ((clientReady initState "w" (reqRoom "3" "W")).1) "w").1).membership
        = initState.membership ∧
    (((disconnect ((clientReady initState "w" (reqRoom "3" "W")).1) "w").1).all_players_list
        = initState.all_players_list ∨
      ((disconnect ((clientReady initState "w" (reqRoom "3" "W")).1) "w").1).all_players_list
        = initState.all_players_list ++ [("w", (none : Option Player))]) :=
  c3_attach_detach_amended initState "w" (reqRoom "3" "W") (by decide) rfl

end SonicFlux
